import Mathlib

/-!
Verification of the HiRID ICU benchmark label-generation stage
(icu_benchmarks/labels/label_benchmark.py).

The per-patient tables are embedded as lists of row structures, numeric
cells as rationals, the not-a-number "unknown" sentinel as the value
none of Option, and Python exceptions as an Except monad over an error
kind.  The transform components that the source file imports from the
utils module are not part of the sources under review, so they are
modelled from the specification text (each such definition says so in
its doc comment); everything else is translated from the source file.
-/

/-- Kinds of Python exceptions observable in the translated code paths. -/
inductive PyError where
  | valueError
  | typeError
  | indexError
  | assertionError
  | lengthMismatch
deriving DecidableEq

/-- A scalar cell of the static table as seen by the str conversion:
either a string, the float nan, or the None object. -/
inductive PyVal where
  | vstr (s : String)
  | vnan
  | vnone
deriving DecidableEq

/-- Result of applying the Python str conversion to a static cell. -/
def pyStr : PyVal → String
  | .vstr s => s
  | .vnan => "nan"
  | .vnone => "None"

/-- One row of the imputed-variable series of a patient: absolute
timestamp, relative timestamp, patient id, the heart-rate cumulative
imputation-status count, body weight (vm131), urine output (vm24) and
the urine cumulative imputation-status count. -/
structure ImputedRow where
  datetime : Int
  rel_datetime : ℚ
  patient_id : Int
  hr_cum : ℚ
  vm131 : ℚ
  vm24 : ℚ
  urine_cum : ℚ
deriving DecidableEq

/-- One row of the endpoint series of a patient. -/
structure EndpointRow where
  patient_id : Int
  datetime : Int
  circ_failure_status : ℚ
  resp_failure_status : ℚ
deriving DecidableEq

/-- The endpoint data frame object handed to gen_label.  The flag
records whether set_index has moved the datetime column into the
frame's index, which is the mutation performed in place by gen_label. -/
structure EndpointFrame where
  index_is_datetime : Bool
  rows : List EndpointRow
deriving DecidableEq

instance {ε α : Type} [DecidableEq ε] [DecidableEq α] : DecidableEq (Except ε α) := fun a b =>
  match a, b with
  | .ok x, .ok y => if h : x = y then .isTrue (by rw [h]) else .isFalse (by simp [h])
  | .ok _, .error _ => .isFalse (by simp)
  | .error _, .ok _ => .isFalse (by simp)
  | .error x, .error y => if h : x = y then .isTrue (by rw [h]) else .isFalse (by simp [h])

/-- One row of the static per-admission table.  The value fields hold
the outcome of reading and coercing the corresponding cell (str for the
discharge status, float for the APACHE group scores): either the coerced
value or the exception the coercion raises. -/
structure StaticRow where
  patient_id : Int
  discharge_status : Except PyError PyVal
  apache_ii : Except PyError ℚ
  apache_iv : Except PyError ℚ
deriving DecidableEq

/-- The per-patient output table built by gen_label: the three key
columns followed by the seven label channels. -/
structure LabelTable where
  abs_datetime : List Int
  rel_datetime : List ℚ
  patient_id : List Int
  mortality : List (Option ℚ)
  circ_failure : List (Option ℚ)
  resp_failure : List (Option ℚ)
  urine_reg : List (Option ℚ)
  urine_binary : List (Option ℚ)
  phenotyping : List (Option ℚ)
  rem_los : List (Option ℚ)
deriving DecidableEq

/-- Numeric value of a boolean label (Python bool used as a number). -/
def boolToQ (b : Bool) : ℚ := if b then 1 else 0

/-- Lift a boolean label array to a numeric label array with no
unknown entries. -/
def bool_to_label (l : List Bool) : List (Option ℚ) := l.map fun b => some (boolToQ b)

/-- Modelled from the spec: the Measurement-Validity Classifier
(utils.get_hr_status, absent from the sources).  Entry t is true iff
the cumulative count strictly increased over a fixed short lookback
window ending at t, with the lookback clamped at the start of the
series, so a series with no increments yields all false. -/
def get_hr_status (lookback : ℕ) (c : List ℚ) : List Bool :=
  (List.range c.length).map fun t => decide (c.getD (t - lookback) 0 < c.getD t 0)

/-- Pointwise masking of a label array by a validity array: positions
with a false mask are overwritten with the unknown sentinel. -/
def mask_apply (label : List (Option ℚ)) (hr_status : List Bool) : List (Option ℚ) :=
  (label.zip hr_status).map fun p => if p.2 then p.1 else none

/-- Modelled from the spec: the Label Masking Operator
(utils.convolve_hr, absent from the sources).  Fails with a
LengthMismatch error on unequal lengths, otherwise masks pointwise. -/
def convolve_hr (label : List (Option ℚ)) (hr_status : List Bool) :
    Except PyError (List (Option ℚ)) :=
  if label.length = hr_status.length then .ok (mask_apply label hr_status)
  else .error .lengthMismatch

/-- Modelled from the spec: the Horizon-Gated Static Labeler
(utils.unique_label_at_hours, absent from the sources).  Unknown before
the horizon offset, the constant scalar from the horizon on. -/
def unique_label_at_hours (spr stay_length : ℕ) (value : Option ℚ) (at_hours : ℕ) :
    List (Option ℚ) :=
  (List.range stay_length).map fun t => if t < at_hours * spr then none else value

/-- Modelled from the spec: the Transition Window Detector
(utils.transition_to_failure, absent from the sources).  Entry t is
true iff the status is not in failure at t and some timestep of the
half-open look-ahead window carries a failure status; indices beyond
the end of the series are treated as not-failure. -/
def transition_to_failure (spr lhours rhours : ℕ) (status : List ℚ) : List Bool :=
  (List.range status.length).map fun t =>
    decide (status.getD t 0 = 0) &&
      (List.range (rhours * spr)).any fun d =>
        decide (lhours * spr ≤ d) && decide (t + d < status.length) &&
          decide (status.getD (t + d) 0 ≠ 0)

/-- Modelled from the spec: the annotation step turning the categorical
respiratory status into a binary failure indicator
(utils.get_any_resp_label, absent from the sources). -/
def get_any_resp_label (status : List ℚ) : List ℚ :=
  status.map fun x => if x = 0 then 0 else 1

/-- Whether the urine cumulative measurement count records a genuine
measurement at timestep j (a strict increase over the previous count,
or a nonzero count at the first timestep). -/
def urine_cum_inc (urine_meas : List ℚ) (j : ℕ) : Bool :=
  if j = 0 then decide (0 < urine_meas.getD 0 0)
  else decide (urine_meas.getD (j - 1) 0 < urine_meas.getD j 0)

/-- Whether the look-ahead window starting at t contains a genuine
urine measurement. -/
def urine_has_meas (spr rhours : ℕ) (urine_meas : List ℚ) (t : ℕ) : Bool :=
  (List.range (rhours * spr)).any fun d =>
    decide (t + d < urine_meas.length) && urine_cum_inc urine_meas (t + d)

/-- Total urine volume over the look-ahead window starting at t. -/
def urine_window_sum (spr rhours : ℕ) (urine : List ℚ) (t : ℕ) : ℚ :=
  ((urine.drop t).take (rhours * spr)).sum

/-- Regression target of the Future-Aggregate Regressor at timestep t:
windowed volume normalized by weight and window hours, unknown when the
window holds no genuine measurement or the weight is not positive. -/
def urine_reg_at (spr rhours : ℕ) (urine urine_meas weight : List ℚ) (t : ℕ) : Option ℚ :=
  if urine_has_meas spr rhours urine_meas t ∧ 0 < weight.getD t 0 then
    some (urine_window_sum spr rhours urine t / (weight.getD t 0 * rhours))
  else none

/-- Modelled from the spec: the Future-Aggregate Regressor
(utils.future_urine_output, absent from the sources).  Returns the
continuous rate target and the binary oliguria target thresholded at
one half, unknown wherever the rate is unknown. -/
def future_urine_output (spr rhours : ℕ) (urine urine_meas weight : List ℚ) :
    List (Option ℚ) × List (Option ℚ) :=
  ((List.range urine.length).map (urine_reg_at spr rhours urine urine_meas weight),
   (List.range urine.length).map fun t =>
     (urine_reg_at spr rhours urine urine_meas weight t).map
       fun x => if x < 1/2 then (1 : ℚ) else 0)

/-- Modelled from the spec: the Severity-Group Merger
(utils.merge_apache_groups, absent from the sources).  Prefers the
bucket defined by the APACHE II mapping, falls back to the APACHE IV
mapping, and is unknown when neither mapping defines a bucket. -/
def merge_apache_groups (g2 g4 : ℚ) (map2 map4 : ℚ → Option ℚ) : Option ℚ :=
  match map2 g2 with
  | some b => some b
  | none => map4 g4

/-- The numpy linspace function over rationals: num evenly spaced
values from start to stop inclusive; a single requested value yields
the start point alone. -/
def linspaceQ (start stop : ℚ) (num : ℕ) : List ℚ :=
  if num = 0 then []
  else if num = 1 then [start]
  else (List.range num).map fun (i : ℕ) => start + (i : ℚ) * ((stop - start) / ((num : ℚ) - 1))

/-- The remaining-length-of-stay channel before masking, as built by
gen_label: linspace from stay_length divided by steps-per-hour down
to zero, one value per timestep. -/
def rem_los_channel (spr stay_length : ℕ) : List (Option ℚ) :=
  (linspaceQ ((stay_length : ℚ) / (spr : ℚ)) 0 stay_length).map some

/-- Translation of is_df_sorted: all consecutive differences of the
column are nonnegative. -/
def is_df_sorted (l : List Int) : Bool :=
  (l.zip l.tail).all fun p => decide (p.1 ≤ p.2)

/-- Translation of gen_label, with the endpoint frame threaded through
explicitly so that its in-place set_index mutation is observable.  The
first component is the returned value (None for empty inputs, the
label table otherwise) or the exception raised; the second component is
the state of the endpoint frame when gen_label returns or raises. -/
def gen_labelS (spr lookback : ℕ) (df_pat : List ImputedRow) (df_endpoint : EndpointFrame)
    (mort_status : Bool) (apache_group : Option ℚ) :
    Except PyError (Option LabelTable) × EndpointFrame :=
  let rows := df_endpoint.rows
  let abs_time_col := df_pat.map (·.datetime)
  let rel_time_col := df_pat.map (·.rel_datetime)
  let patient_col := df_pat.map (·.patient_id)
  let stay_length := rel_time_col.length
  let hr_col := df_pat.map (·.hr_cum)
  let hr_status_arr := get_hr_status lookback hr_col
  if df_pat.length = 0 ∨ rows.length = 0 then (.ok none, df_endpoint)
  else if ¬ (rows.map (·.datetime)).Nodup then
    (.error .valueError, df_endpoint)
  else
    let df_endpoint2 : EndpointFrame := ⟨true, df_endpoint.rows⟩
    if abs_time_col.length ≠ rows.length then (.error .valueError, df_endpoint2)
    else if abs_time_col ≠ rows.map (·.datetime) then (.error .assertionError, df_endpoint2)
    else
      ((do
        let dynamic_mort_arr ← convolve_hr
          (unique_label_at_hours spr stay_length (some (boolToQ mort_status)) 24) hr_status_arr
        let dynamic_circ_failure ← convolve_hr
          (bool_to_label (transition_to_failure spr 0 12 (rows.map (·.circ_failure_status))))
          hr_status_arr
        let dynamic_resp_failure ← convolve_hr
          (bool_to_label (transition_to_failure spr 0 12
            (get_any_resp_label (rows.map (·.resp_failure_status))))) hr_status_arr
        let urine_pair := future_urine_output spr 2 (df_pat.map (·.vm24))
          (df_pat.map (·.urine_cum)) (df_pat.map (·.vm131))
        let urine_reg_arr ← convolve_hr urine_pair.1 hr_status_arr
        let urine_binary_arr ← convolve_hr urine_pair.2 hr_status_arr
        let apache_arr ← convolve_hr (unique_label_at_hours spr stay_length apache_group 24)
          hr_status_arr
        let rem_los ← convolve_hr (rem_los_channel spr stay_length) hr_status_arr
        .ok (some ⟨abs_time_col, rel_time_col, patient_col, dynamic_mort_arr,
          dynamic_circ_failure, dynamic_resp_failure, urine_reg_arr, urine_binary_arr,
          apache_arr, rem_los⟩)),
       df_endpoint2)

/-- The value returned (or exception raised) by gen_label. -/
def gen_label (spr lookback : ℕ) (df_pat : List ImputedRow) (df_endpoint : EndpointFrame)
    (mort_status : Bool) (apache_group : Option ℚ) : Except PyError (Option LabelTable) :=
  (gen_labelS spr lookback df_pat df_endpoint mort_status apache_group).1

/-- Translation of the per-patient mortality block of
label_gen_benchmark: select the static rows of the patient, take the
first discharge-status value (an IndexError when there is none), and
compare its string form against the exact string dead. -/
def mort_lookup (rows : List StaticRow) : Except PyError Bool :=
  match rows with
  | [] => .error .indexError
  | r :: _ =>
    match r.discharge_status with
    | .ok v => .ok (decide (pyStr v = "dead"))
    | .error e => .error e

/-- Translation of the try/except around the mortality block: a
ValueError or TypeError is converted to the false default, every other
outcome passes through. -/
def try_coerce (c : Except PyError Bool) : Except PyError Bool :=
  match c with
  | .error .valueError => .ok false
  | .error .typeError => .ok false
  | x => x

/-- Translation of the float coercion of the APACHE II score column of
the patient's static slice: float of a selection succeeds only on a
one-row selection, raising a TypeError otherwise. -/
def apache_ii_lookup (rows : List StaticRow) : Except PyError ℚ :=
  match rows with
  | [r] => r.apache_ii
  | _ => .error .typeError

/-- Translation of the float coercion of the APACHE IV score column. -/
def apache_iv_lookup (rows : List StaticRow) : Except PyError ℚ :=
  match rows with
  | [r] => r.apache_iv
  | _ => .error .typeError

/-- Ordering of endpoint rows by their timestamp. -/
def endpoint_le : EndpointRow → EndpointRow → Prop := fun a b => a.datetime ≤ b.datetime

instance : DecidableRel endpoint_le := fun a b => Int.decLe a.datetime b.datetime

instance : IsTotal EndpointRow endpoint_le :=
  ⟨fun a b => Int.le_total a.datetime b.datetime⟩

instance : IsTrans EndpointRow endpoint_le :=
  ⟨fun _ _ _ hab hbc => le_trans hab hbc⟩

/-- Translation of the endpoint sorting step of label_gen_benchmark:
an already sorted slice is used unchanged, otherwise the slice is
sorted by timestamp with a stable merge sort (embedded as the stable
insertion sort, which computes the same stably-sorted list). -/
def prepare_endpoint (rows : List EndpointRow) : List EndpointRow :=
  if is_df_sorted (rows.map (·.datetime)) then rows
  else List.insertionSort endpoint_le rows

/-- A step outcome of the per-patient loop of label_gen_benchmark. -/
inductive StepResult where
  | appended (t : LabelTable)
  | skipped
  | fatal (e : PyError)
deriving DecidableEq

/-- Translation of the tail of the loop body: a None label is a skip,
otherwise the row-count assertion runs and the table is appended. -/
def driver_handle_label (res : Option LabelTable) (pat_len : ℕ) : StepResult :=
  match res with
  | none => .skipped
  | some t => if t.abs_datetime.length = pat_len then .appended t else .fatal .assertionError

/-- Translation of one iteration of the patient loop of
label_gen_benchmark: static lookups, slicing, empty-slice skips, the
sorting step and the gen_label call, with uncaught exceptions surfacing
as fatal outcomes that abort the batch. -/
def process_patient (spr lookback : ℕ) (map2 map4 : ℚ → Option ℚ) (df_static : List StaticRow)
    (df_all_pats : List ImputedRow) (df_all_endpoints : List EndpointRow) (pid : Int) :
    StepResult :=
  let stat_rows := df_static.filter fun r => decide (r.patient_id = pid)
  match try_coerce (mort_lookup stat_rows) with
  | .error e => .fatal e
  | .ok mort_status =>
    match apache_ii_lookup stat_rows with
    | .error e => .fatal e
    | .ok apache_ii_group =>
      match apache_iv_lookup stat_rows with
      | .error e => .fatal e
      | .ok apache_iv_group =>
        let apache_pat_group := merge_apache_groups apache_ii_group apache_iv_group map2 map4
        let df_endpoint := df_all_endpoints.filter fun r => decide (r.patient_id = pid)
        let df_pat := df_all_pats.filter fun r => decide (r.patient_id = pid)
        if df_pat.length = 0 ∨ df_endpoint.length = 0 then .skipped
        else
          match gen_label spr lookback df_pat ⟨false, prepare_endpoint df_endpoint⟩
              mort_status apache_pat_group with
          | .error e => .fatal e
          | .ok res => driver_handle_label res df_pat.length

/-- Translation of the patient loop of label_gen_benchmark over a list
of patient ids: accumulates the appended tables and the skipped-patient
count, and aborts with the exception of the first fatal step. -/
def run_batch (spr lookback : ℕ) (map2 map4 : ℚ → Option ℚ) (df_static : List StaticRow)
    (df_all_pats : List ImputedRow) (df_all_endpoints : List EndpointRow) (pids : List Int) :
    Except PyError (List LabelTable × ℕ) :=
  pids.foldlM
    (fun acc pid =>
      match process_patient spr lookback map2 map4 df_static df_all_pats df_all_endpoints pid with
      | .appended t => .ok (acc.1 ++ [t], acc.2)
      | .skipped => .ok (acc.1, acc.2 + 1)
      | .fatal e => .error e)
    ([], 0)

/-- The only-unknown-when predicate of the label-channel invariant: an
unknown entry at a timestep is licensed only by the timestep preceding
the channel's information horizon or by a false validity mask there. -/
def channel_unknown_ok (horizon : ℕ) (mask : List Bool) (ch : List (Option ℚ)) : Prop :=
  ∀ t, ch.getD t (some 0) = none → t < horizon ∨ mask.getD t false = false

/-- The validity mask used by gen_label for a given imputed slice. -/
def pat_mask (lookback : ℕ) (df_pat : List ImputedRow) : List Bool :=
  get_hr_status lookback (df_pat.map (·.hr_cum))

/-- A two-timestep patient whose slices are aligned, with the
heart-rate counter incrementing at the second timestep. -/
def exPat : List ImputedRow := [⟨0, 0, 7, 1, 70, 0, 0⟩, ⟨1, 1, 7, 2, 70, 0, 0⟩]

/-- The endpoint rows aligned with exPat. -/
def exEndRows : List EndpointRow := [⟨7, 0, 0, 0⟩, ⟨7, 1, 0, 0⟩]

/-- A 26-timestep patient at one step per hour whose heart-rate counter
increments every step (validity mask true from the second step on) and
whose urine counter never increments. -/
def c1_pat : List ImputedRow :=
  (List.range 26).map fun i => ⟨Int.ofNat i, (i : ℚ), 7, ((i.succ : ℕ) : ℚ), 70, 0, 0⟩

/-- The endpoint rows aligned with c1_pat, never in failure. -/
def c1_end : List EndpointRow := (List.range 26).map fun i => ⟨7, Int.ofNat i, 0, 0⟩

/-- The label table gen_label builds for the c1 patient. -/
def c1_out : Option LabelTable :=
  match gen_label 1 1 c1_pat ⟨false, c1_end⟩ true (some 3) with
  | .ok o => o
  | .error _ => none

/-- The urine regression channel of the c1 patient's label table. -/
def c1_urine_reg : List (Option ℚ) := (c1_out.map LabelTable.urine_reg).getD []

/-- A static table with one well-formed row for patient 7. -/
def c2_static : List StaticRow := [⟨7, .ok (.vstr ("alive")), .ok 1, .ok 1⟩]

/-- Endpoint rows for patient 7 whose timestamps (0 and 2) do not match
the imputed timestamps (0 and 1) of exPat. -/
def c2_ends : List EndpointRow := [⟨7, 0, 0, 0⟩, ⟨7, 2, 0, 0⟩]

/-- A static row whose discharge-status read raises a ValueError. -/
def c7_row : StaticRow := ⟨7, .error .valueError, .ok 1, .ok 1⟩

/-- A static row whose APACHE II float coercion raises a ValueError. -/
def c7_row2 : StaticRow := ⟨7, .ok (.vstr ("alive")), .error .valueError, .ok 1⟩

/-- The static table holding only c7_row2. -/
def c7_static : List StaticRow := [c7_row2]

/-- A static row for patient 7 whose discharge status reads dead. -/
def c10_row : StaticRow := ⟨7, .ok (.vstr ("dead")), .ok 1, .ok 1⟩

/-- Inversion of a successful bind in the Except monad. -/
lemma except_bind_ok {ε α β : Type} (e : Except ε α) (f : α → Except ε β) (b : β) :
    (e >>= f) = .ok b ↔ ∃ a, e = .ok a ∧ f a = .ok b := by
  cases e with
  | ok a => simp [Bind.bind, Except.bind]
  | error err => simp [Bind.bind, Except.bind]

/-- Indexing a mapped range with a default. -/
lemma getD_range_map {α : Type} (f : ℕ → α) (L t : ℕ) (d : α) (h : t < L) :
    ((List.range L).map f).getD t d = f t := by
  rw [List.getD_eq_getElem?_getD]
  simp [List.getElem?_map, List.getElem?_range, h]

/-- Length of the masked array. -/
lemma mask_apply_length (label : List (Option ℚ)) (mask : List Bool) :
    (mask_apply label mask).length = min label.length mask.length := by
  simp [mask_apply]

/-- Pointwise description of the masked array. -/
lemma mask_apply_getD (label : List (Option ℚ)) (mask : List Bool) (t : ℕ)
    (h : label.length = mask.length) (ht : t < label.length) :
    (mask_apply label mask).getD t (some 0) =
      if mask.getD t false then label.getD t (some 0) else none := by
  induction label generalizing mask t with
  | nil => simp at ht
  | cons a l ih =>
    cases mask with
    | nil => simp at h
    | cons b ms =>
      cases t with
      | zero => simp [mask_apply]
      | succ n =>
        have h2 : l.length = ms.length := by simpa using h
        have ht2 : n < l.length := by simpa using ht
        simpa [mask_apply] using ih ms n h2 ht2

/-- A successful masking call certifies equal lengths and yields the
pointwise-masked array. -/
lemma convolve_hr_ok {label : List (Option ℚ)} {mask : List Bool} {out : List (Option ℚ)}
    (h : convolve_hr label mask = .ok out) :
    label.length = mask.length ∧ out = mask_apply label mask := by
  unfold convolve_hr at h
  split at h
  · exact ⟨by assumption, by injection h with h2; exact h2.symm⟩
  · cases h

/-- A successful masking call preserves the label length. -/
lemma convolve_hr_ok_length {label : List (Option ℚ)} {mask : List Bool}
    {out : List (Option ℚ)} (h : convolve_hr label mask = .ok out) :
    out.length = label.length := by
  obtain ⟨hlen, rfl⟩ := convolve_hr_ok h
  rw [mask_apply_length, hlen, min_self]

/-- An unknown entry of a masked array comes from a false mask or an
unknown entry of the unmasked array. -/
lemma convolve_none {label : List (Option ℚ)} {mask : List Bool} {out : List (Option ℚ)}
    (h : convolve_hr label mask = .ok out) (t : ℕ)
    (hn : out.getD t (some 0) = none) :
    mask.getD t false = false ∨ label.getD t (some 0) = none := by
  obtain ⟨hlen, rfl⟩ := convolve_hr_ok h
  by_cases ht : t < label.length
  · rw [mask_apply_getD label mask t hlen ht] at hn
    by_cases hm : mask.getD t false
    · right; rwa [if_pos hm] at hn
    · left; simpa using hm
  · rw [List.getD_eq_default] at hn
    · cases hn
    · rw [mask_apply_length, hlen, min_self, ← hlen]; omega

/-- Length of the horizon-gated channel. -/
lemma unique_label_length (spr L : ℕ) (v : Option ℚ) (hh : ℕ) :
    (unique_label_at_hours spr L v hh).length = L := by
  simp [unique_label_at_hours]

/-- An unknown entry of the horizon-gated channel is before the horizon
or the scalar itself is unknown. -/
lemma unique_label_none {spr L : ℕ} {v : Option ℚ} {hh : ℕ} {t : ℕ}
    (hn : (unique_label_at_hours spr L v hh).getD t (some 0) = none) :
    t < hh * spr ∨ v = none := by
  by_cases ht : t < L
  · unfold unique_label_at_hours at hn
    rw [getD_range_map _ _ _ _ ht] at hn
    split at hn
    · left; assumption
    · right; exact hn
  · rw [List.getD_eq_default] at hn
    · cases hn
    · rw [unique_label_length]; omega

/-- A boolean label array has no unknown entries. -/
lemma bool_to_label_getD_ne_none (l : List Bool) (t : ℕ) :
    (bool_to_label l).getD t (some 0) ≠ none := by
  unfold bool_to_label
  rw [List.getD_eq_getElem?_getD]
  rcases hl : l[t]? with _ | b <;> simp [List.getElem?_map, hl]

/-- A fully-known numeric array has no unknown entries. -/
lemma map_some_getD_ne_none (l : List ℚ) (t : ℕ) :
    (l.map some).getD t (some 0) ≠ none := by
  rw [List.getD_eq_getElem?_getD]
  rcases hl : l[t]? with _ | b <;> simp [List.getElem?_map, hl]

/-- The remaining-length-of-stay channel has no unknown entries before
masking. -/
lemma rem_los_channel_getD_ne_none (spr L t : ℕ) :
    (rem_los_channel spr L).getD t (some 0) ≠ none := by
  unfold rem_los_channel
  exact map_some_getD_ne_none _ t

/-- Length of the remaining-length-of-stay channel. -/
lemma rem_los_channel_length (spr L : ℕ) : (rem_los_channel spr L).length = L := by
  unfold rem_los_channel linspaceQ
  by_cases h0 : L = 0
  · simp [h0]
  · by_cases h1 : L = 1
    · simp [h0, h1]
    · rw [if_neg h0, if_neg h1]
      rw [List.length_map, List.length_map, List.length_range]

/-- An unknown regression target means the window has no genuine
measurement or the weight is not positive. -/
lemma urine_reg_at_none {spr r : ℕ} {u um w : List ℚ} {t : ℕ}
    (h : urine_reg_at spr r u um w t = none) :
    urine_has_meas spr r um t = false ∨ w.getD t 0 ≤ 0 := by
  unfold urine_reg_at at h
  by_cases hc : urine_has_meas spr r um t ∧ 0 < w.getD t 0
  · rw [if_pos hc] at h; cases h
  · rcases hb : urine_has_meas spr r um t with _ | _
    · exact Or.inl rfl
    · right
      by_contra hw
      exact hc ⟨by simp [hb], lt_of_not_le hw⟩

/-- Lengths of the urine channels. -/
lemma future_urine_output_length (spr r : ℕ) (u um w : List ℚ) :
    (future_urine_output spr r u um w).1.length = u.length ∧
      (future_urine_output spr r u um w).2.length = u.length := by
  simp [future_urine_output]

/-- An unknown entry of the urine regression channel. -/
lemma urine_reg_none {spr r : ℕ} {u um w : List ℚ} {t : ℕ}
    (hn : (future_urine_output spr r u um w).1.getD t (some 0) = none) :
    urine_has_meas spr r um t = false ∨ w.getD t 0 ≤ 0 := by
  by_cases ht : t < u.length
  · unfold future_urine_output at hn
    rw [getD_range_map _ _ _ _ ht] at hn
    exact urine_reg_at_none hn
  · rw [List.getD_eq_default] at hn
    · cases hn
    · rw [(future_urine_output_length spr r u um w).1]; omega

/-- An unknown entry of the urine binary channel. -/
lemma urine_binary_none {spr r : ℕ} {u um w : List ℚ} {t : ℕ}
    (hn : (future_urine_output spr r u um w).2.getD t (some 0) = none) :
    urine_has_meas spr r um t = false ∨ w.getD t 0 ≤ 0 := by
  by_cases ht : t < u.length
  · unfold future_urine_output at hn
    rw [getD_range_map _ _ _ _ ht] at hn
    rcases hr : urine_reg_at spr r u um w t with _ | v
    · exact urine_reg_at_none hr
    · rw [hr] at hn; cases hn
  · rw [List.getD_eq_default] at hn
    · cases hn
    · rw [(future_urine_output_length spr r u um w).2]; omega


/-- Inversion of a successful gen_label call: the inputs were nonempty
and aligned, the key columns are copied from the imputed slice, and
every label channel is the output of the Label Masking Operator applied
to the corresponding transform with the reference-vital mask. -/
lemma gen_label_ok_inv {spr lookback : ℕ} {df_pat : List ImputedRow}
    {df_endpoint : EndpointFrame} {m : Bool} {ap : Option ℚ} {out : LabelTable}
    (h : gen_label spr lookback df_pat df_endpoint m ap = .ok (some out)) :
    df_pat ≠ [] ∧ df_endpoint.rows ≠ [] ∧
    df_pat.map (·.datetime) = df_endpoint.rows.map (·.datetime) ∧
    out.abs_datetime = df_pat.map (·.datetime) ∧
    out.rel_datetime = df_pat.map (·.rel_datetime) ∧
    out.patient_id = df_pat.map (·.patient_id) ∧
    convolve_hr (unique_label_at_hours spr df_pat.length (some (boolToQ m)) 24)
      (pat_mask lookback df_pat) = .ok out.mortality ∧
    convolve_hr (bool_to_label (transition_to_failure spr 0 12
        (df_endpoint.rows.map (·.circ_failure_status))))
      (pat_mask lookback df_pat) = .ok out.circ_failure ∧
    convolve_hr (bool_to_label (transition_to_failure spr 0 12
        (get_any_resp_label (df_endpoint.rows.map (·.resp_failure_status)))))
      (pat_mask lookback df_pat) = .ok out.resp_failure ∧
    convolve_hr (future_urine_output spr 2 (df_pat.map (·.vm24)) (df_pat.map (·.urine_cum))
        (df_pat.map (·.vm131))).1 (pat_mask lookback df_pat) = .ok out.urine_reg ∧
    convolve_hr (future_urine_output spr 2 (df_pat.map (·.vm24)) (df_pat.map (·.urine_cum))
        (df_pat.map (·.vm131))).2 (pat_mask lookback df_pat) = .ok out.urine_binary ∧
    convolve_hr (unique_label_at_hours spr df_pat.length ap 24)
      (pat_mask lookback df_pat) = .ok out.phenotyping ∧
    convolve_hr (rem_los_channel spr df_pat.length)
      (pat_mask lookback df_pat) = .ok out.rem_los := by
  unfold gen_label gen_labelS at h
  dsimp only at h
  by_cases h1 : df_pat.length = 0 ∨ df_endpoint.rows.length = 0
  · rw [if_pos h1] at h
    simp at h
  · rw [if_neg h1] at h
    by_cases h2 : (List.map (fun x => x.datetime) df_endpoint.rows).Nodup
    · rw [if_neg (not_not_intro h2)] at h
      by_cases h3 : (List.map (fun x => x.datetime) df_pat).length = df_endpoint.rows.length
      · rw [if_neg (not_not_intro h3)] at h
        by_cases h4 : List.map (fun x => x.datetime) df_pat =
            List.map (fun x => x.datetime) df_endpoint.rows
        · rw [if_neg (not_not_intro h4)] at h
          dsimp only at h
          simp only [List.length_map] at h
          rw [except_bind_ok] at h
          obtain ⟨amort, hmort, h⟩ := h
          rw [except_bind_ok] at h
          obtain ⟨acirc, hcirc, h⟩ := h
          rw [except_bind_ok] at h
          obtain ⟨aresp, hresp, h⟩ := h
          rw [except_bind_ok] at h
          obtain ⟨aureg, hureg, h⟩ := h
          rw [except_bind_ok] at h
          obtain ⟨aubin, hubin, h⟩ := h
          rw [except_bind_ok] at h
          obtain ⟨aphen, hphen, h⟩ := h
          rw [except_bind_ok] at h
          obtain ⟨alos, hlos, h⟩ := h
          have hout : (⟨List.map (fun x => x.datetime) df_pat,
              List.map (fun x => x.rel_datetime) df_pat,
              List.map (fun x => x.patient_id) df_pat,
              amort, acirc, aresp, aureg, aubin, aphen, alos⟩ : LabelTable) = out := by
            simpa using h
          subst hout
          have hp : df_pat ≠ [] := by
            intro he; exact h1 (Or.inl (by simp [he]))
          have hr : df_endpoint.rows ≠ [] := by
            intro he; exact h1 (Or.inr (by simp [he]))
          exact ⟨hp, hr, h4, rfl, rfl, rfl, hmort, hcirc, hresp, hureg, hubin, hphen, hlos⟩
        · rw [if_pos h4] at h
          simp at h
      · rw [if_pos h3] at h
        simp at h
    · rw [if_pos h2] at h
      simp at h

/-- A nonempty misaligned patient makes gen_label raise: depending on
which check fires first this is the duplicate-index ValueError, the
length-mismatch ValueError of the index comparison, or the
AssertionError of the alignment assert. -/
lemma gen_label_mismatch {spr lookback : ℕ} {df_pat : List ImputedRow}
    {frame : EndpointFrame} {m : Bool} {ap : Option ℚ}
    (hpat : df_pat ≠ []) (hrows : frame.rows ≠ [])
    (hmis : df_pat.map (·.datetime) ≠ frame.rows.map (·.datetime)) :
    ∃ e, gen_label spr lookback df_pat frame m ap = .error e := by
  unfold gen_label gen_labelS
  dsimp only
  have h1 : ¬ (df_pat.length = 0 ∨ frame.rows.length = 0) := by
    intro hc
    rcases hc with hc | hc
    · exact hpat (List.length_eq_zero.mp hc)
    · exact hrows (List.length_eq_zero.mp hc)
  rw [if_neg h1]
  by_cases h2 : (List.map (fun x => x.datetime) frame.rows).Nodup
  · rw [if_neg (not_not_intro h2)]
    by_cases h3 : (List.map (fun x => x.datetime) df_pat).length = frame.rows.length
    · rw [if_neg (not_not_intro h3)]
      rw [if_pos hmis]
      exact ⟨.assertionError, rfl⟩
    · rw [if_pos h3]
      exact ⟨.valueError, rfl⟩
  · rw [if_pos h2]
    exact ⟨.valueError, rfl⟩

/-- The is_df_sorted check accepts exactly the chains of nondecreasing
consecutive values. -/
lemma is_df_sorted_iff (l : List Int) :
    is_df_sorted l = true ↔ l.Chain' (· ≤ ·) := by
  induction l with
  | nil => simp [is_df_sorted]
  | cons a t ih =>
    cases t with
    | nil => simp [is_df_sorted]
    | cons b t2 =>
      simp only [is_df_sorted, List.tail_cons, List.zip_cons_cons, List.all_cons,
        Bool.and_eq_true, decide_eq_true_eq, List.chain'_cons]
      exact and_congr_right fun _ => by simpa [is_df_sorted] using ih

/-- Inserting a row in key order places it before every row of equal
key, so the by-key filter gains the new row at the front when the keys
agree and is untouched otherwise. -/
lemma filter_orderedInsert (k : Int) (x : EndpointRow) (l : List EndpointRow) :
    (List.orderedInsert endpoint_le x l).filter (fun r => decide (r.datetime = k)) =
      if x.datetime = k then x :: l.filter (fun r => decide (r.datetime = k))
      else l.filter (fun r => decide (r.datetime = k)) := by
  induction l with
  | nil =>
    simp only [List.orderedInsert, List.filter]
    by_cases hk : x.datetime = k <;> simp [hk]
  | cons b t ih =>
    by_cases hxb : endpoint_le x b
    · rw [List.orderedInsert, if_pos hxb]
      by_cases hk : x.datetime = k <;> simp [List.filter_cons, hk]
    · rw [List.orderedInsert, if_neg hxb]
      have hblt : b.datetime < x.datetime := lt_of_not_le hxb
      by_cases hk : x.datetime = k
      · have hbk : ¬ b.datetime = k := by omega
        simp [List.filter_cons, hbk, ih, hk]
      · simp [List.filter_cons, ih, hk]

/-- Stability of the key-ordered insertion sort: the rows of any fixed
timestamp keep their original relative order. -/
lemma filter_insertionSort (k : Int) (l : List EndpointRow) :
    (List.insertionSort endpoint_le l).filter (fun r => decide (r.datetime = k)) =
      l.filter (fun r => decide (r.datetime = k)) := by
  induction l with
  | nil => rfl
  | cons a t ih =>
    rw [List.insertionSort, filter_orderedInsert]
    by_cases hk : a.datetime = k <;> simp [List.filter_cons, hk, ih]







/-- C1: the urine regression channel produced by gen_label violates the
only-unknown-before-horizon-or-masked invariant as stated: at timestep
25 of the c1 patient the mask is true and the timestep is past even the
largest horizon in use (24 hours at one step per hour), yet the entry
is unknown, because the look-ahead window holds no genuine urine
measurement. -/
theorem c1_counterexample :
    c1_out.isSome = true ∧
    ¬ channel_unknown_ok (24 * 1) (pat_mask 1 c1_pat) c1_urine_reg := by
  constructor
  · decide
  · intro hok
    rcases hok 25 (by decide) with hlt | hmask
    · exact absurd hlt (by decide)
    · exact absurd hmask (by decide)

/-- C1 (amended): every one of the seven label channels produced by a
successful gen_label call is an output of the Label Masking Operator
under the validity mask derived from the heart-rate cumulative-count
column, and an unknown entry at timestep t can only arise from t
preceding the channel's horizon, from a false mask at t, from the
merged phenotype scalar itself being unknown (phenotyping channel), or
from a look-ahead window without genuine measurement or a nonpositive
weight (the two urine channels). -/
theorem c1_amended (spr lookback : ℕ) (df_pat : List ImputedRow)
    (df_endpoint : EndpointFrame) (m : Bool) (ap : Option ℚ) (out : LabelTable)
    (h : gen_label spr lookback df_pat df_endpoint m ap = .ok (some out)) :
    (∃ pre, convolve_hr pre (pat_mask lookback df_pat) = .ok out.mortality) ∧
    (∃ pre, convolve_hr pre (pat_mask lookback df_pat) = .ok out.circ_failure) ∧
    (∃ pre, convolve_hr pre (pat_mask lookback df_pat) = .ok out.resp_failure) ∧
    (∃ pre, convolve_hr pre (pat_mask lookback df_pat) = .ok out.urine_reg) ∧
    (∃ pre, convolve_hr pre (pat_mask lookback df_pat) = .ok out.urine_binary) ∧
    (∃ pre, convolve_hr pre (pat_mask lookback df_pat) = .ok out.phenotyping) ∧
    (∃ pre, convolve_hr pre (pat_mask lookback df_pat) = .ok out.rem_los) ∧
    channel_unknown_ok (24 * spr) (pat_mask lookback df_pat) out.mortality ∧
    channel_unknown_ok 0 (pat_mask lookback df_pat) out.circ_failure ∧
    channel_unknown_ok 0 (pat_mask lookback df_pat) out.resp_failure ∧
    channel_unknown_ok 0 (pat_mask lookback df_pat) out.rem_los ∧
    (∀ t, out.phenotyping.getD t (some 0) = none →
      t < 24 * spr ∨ (pat_mask lookback df_pat).getD t false = false ∨ ap = none) ∧
    (∀ t, out.urine_reg.getD t (some 0) = none →
      (pat_mask lookback df_pat).getD t false = false ∨
        urine_has_meas spr 2 (df_pat.map (·.urine_cum)) t = false ∨
        (df_pat.map (·.vm131)).getD t 0 ≤ 0) ∧
    (∀ t, out.urine_binary.getD t (some 0) = none →
      (pat_mask lookback df_pat).getD t false = false ∨
        urine_has_meas spr 2 (df_pat.map (·.urine_cum)) t = false ∨
        (df_pat.map (·.vm131)).getD t 0 ≤ 0) := by
  obtain ⟨-, -, -, -, -, -, hmort, hcirc, hresp, hureg, hubin, hphen, hlos⟩ :=
    gen_label_ok_inv h
  refine ⟨⟨_, hmort⟩, ⟨_, hcirc⟩, ⟨_, hresp⟩, ⟨_, hureg⟩, ⟨_, hubin⟩, ⟨_, hphen⟩, ⟨_, hlos⟩,
    ?_, ?_, ?_, ?_, ?_, ?_, ?_⟩
  · intro t hn
    rcases convolve_none hmort t hn with hm | hu
    · exact Or.inr hm
    · rcases unique_label_none hu with hlt | hv
      · exact Or.inl hlt
      · cases hv
  · intro t hn
    rcases convolve_none hcirc t hn with hm | hu
    · exact Or.inr hm
    · exact absurd hu (bool_to_label_getD_ne_none _ t)
  · intro t hn
    rcases convolve_none hresp t hn with hm | hu
    · exact Or.inr hm
    · exact absurd hu (bool_to_label_getD_ne_none _ t)
  · intro t hn
    rcases convolve_none hlos t hn with hm | hu
    · exact Or.inr hm
    · exact absurd hu (rem_los_channel_getD_ne_none spr df_pat.length t)
  · intro t hn
    rcases convolve_none hphen t hn with hm | hu
    · exact Or.inr (Or.inl hm)
    · rcases unique_label_none hu with hlt | hv
      · exact Or.inl hlt
      · exact Or.inr (Or.inr hv)
  · intro t hn
    rcases convolve_none hureg t hn with hm | hu
    · exact Or.inl hm
    · rcases urine_reg_none hu with hw | hw
      · exact Or.inr (Or.inl hw)
      · exact Or.inr (Or.inr hw)
  · intro t hn
    rcases convolve_none hubin t hn with hm | hu
    · exact Or.inl hm
    · rcases urine_binary_none hu with hw | hw
      · exact Or.inr (Or.inl hw)
      · exact Or.inr (Or.inr hw)

/-- Witness for C1 (amended) at a concrete two-timestep patient. -/
theorem c1_amended_witness :
    ∃ out, gen_label 12 1 exPat ⟨false, exEndRows⟩ false (some 3) = .ok (some out) ∧
      ∃ pre, convolve_hr pre (pat_mask 1 exPat) = .ok out.mortality :=
  ⟨_, rfl, (c1_amended 12 1 exPat ⟨false, exEndRows⟩ false (some 3) _ rfl).1⟩



/-- C2: a patient with nonempty but misaligned slices is not skipped;
the alignment assert of gen_label escapes the per-patient step as a
fatal AssertionError, contradicting the claimed skip-and-continue. -/
theorem c2_counterexample :
    process_patient 12 1 (fun _ => some 3) (fun _ => some 3) c2_static exPat c2_ends 7 =
      .fatal .assertionError ∧
    StepResult.fatal PyError.assertionError ≠ StepResult.skipped := by
  exact ⟨by decide, by decide⟩

/-- C2 (amended): for every patient whose imputed and endpoint slices
are nonempty but whose timestamps do not match 1:1 after sorting, the
per-patient step ends fatally with an uncaught exception and the batch
run aborts with that exception instead of counting a skip. -/
theorem c2_amended (spr lookback : ℕ) (map2 map4 : ℚ → Option ℚ)
    (df_static : List StaticRow) (df_all_pats : List ImputedRow)
    (df_all_endpoints : List EndpointRow) (pid : Int)
    (hpat : df_all_pats.filter (fun r => decide (r.patient_id = pid)) ≠ [])
    (hend : df_all_endpoints.filter (fun r => decide (r.patient_id = pid)) ≠ [])
    (hmis : (df_all_pats.filter (fun r => decide (r.patient_id = pid))).map (·.datetime) ≠
      (prepare_endpoint (df_all_endpoints.filter (fun r => decide (r.patient_id = pid)))).map
        (·.datetime)) :
    ∃ e, process_patient spr lookback map2 map4 df_static df_all_pats df_all_endpoints pid =
        .fatal e ∧
      run_batch spr lookback map2 map4 df_static df_all_pats df_all_endpoints [pid] =
        .error e := by
  have hfatal : ∃ e,
      process_patient spr lookback map2 map4 df_static df_all_pats df_all_endpoints pid =
        .fatal e := by
    unfold process_patient
    dsimp only
    cases hm : try_coerce (mort_lookup (df_static.filter fun r => decide (r.patient_id = pid)))
      with
    | error e => exact ⟨e, rfl⟩
    | ok mort_status =>
      cases hii : apache_ii_lookup (df_static.filter fun r => decide (r.patient_id = pid)) with
      | error e => exact ⟨e, rfl⟩
      | ok g2 =>
        cases hiv : apache_iv_lookup (df_static.filter fun r => decide (r.patient_id = pid))
          with
        | error e => exact ⟨e, rfl⟩
        | ok g4 =>
          have hc : ¬ ((df_all_pats.filter fun r => decide (r.patient_id = pid)).length = 0 ∨
              (df_all_endpoints.filter fun r => decide (r.patient_id = pid)).length = 0) := by
            intro hc
            rcases hc with hc | hc
            · exact hpat (List.length_eq_zero.mp hc)
            · exact hend (List.length_eq_zero.mp hc)
          dsimp only
          rw [if_neg hc]
          have hprep : prepare_endpoint
              (df_all_endpoints.filter fun r => decide (r.patient_id = pid)) ≠ [] := by
            unfold prepare_endpoint
            split
            · exact hend
            · intro hh
              have hp2 := List.perm_insertionSort endpoint_le
                (df_all_endpoints.filter fun r => decide (r.patient_id = pid))
              rw [hh] at hp2
              exact hend hp2.nil_eq.symm
          obtain ⟨e, he⟩ := @gen_label_mismatch spr lookback
            (df_all_pats.filter fun r => decide (r.patient_id = pid))
            ⟨false, prepare_endpoint
              (df_all_endpoints.filter fun r => decide (r.patient_id = pid))⟩
            mort_status (merge_apache_groups g2 g4 map2 map4)
            hpat hprep hmis
          rw [he]
          exact ⟨e, rfl⟩
  obtain ⟨e, he⟩ := hfatal
  refine ⟨e, he, ?_⟩
  unfold run_batch
  simp [List.foldlM, he]

/-- Witness for C2 (amended) at the concrete misaligned patient. -/
theorem c2_amended_witness :
    ∃ e, process_patient 12 1 (fun _ => some 3) (fun _ => some 3) c2_static exPat c2_ends 7 =
        .fatal e ∧
      run_batch 12 1 (fun _ => some 3) (fun _ => some 3) c2_static exPat c2_ends [7] =
        .error e :=
  c2_amended 12 1 (fun _ => some 3) (fun _ => some 3) c2_static exPat c2_ends 7
    (by decide) (by decide) (by decide)

/-- C3: gen_label returns the distinguished no-label result (None, not
a zero-row table) when either input series is empty; the driver skips a
patient with an empty slice; a None label is handled as a skip; and a
skipped patient contributes no output table while incrementing the
skipped-patient counter of the batch run. -/
theorem c3_empty_skip :
    (∀ (spr lookback : ℕ) (df_pat : List ImputedRow) (frame : EndpointFrame) (m : Bool)
        (ap : Option ℚ), df_pat = [] ∨ frame.rows = [] →
      gen_label spr lookback df_pat frame m ap = .ok none) ∧
    (∀ L : ℕ, driver_handle_label none L = .skipped) ∧
    (∀ (spr lookback : ℕ) (map2 map4 : ℚ → Option ℚ) (df_static : List StaticRow)
        (df_all_pats : List ImputedRow) (df_all_endpoints : List EndpointRow) (pid : Int)
        (b : Bool) (g2 g4 : ℚ),
      try_coerce (mort_lookup (df_static.filter fun r => decide (r.patient_id = pid))) =
        .ok b →
      apache_ii_lookup (df_static.filter fun r => decide (r.patient_id = pid)) = .ok g2 →
      apache_iv_lookup (df_static.filter fun r => decide (r.patient_id = pid)) = .ok g4 →
      (df_all_pats.filter (fun r => decide (r.patient_id = pid)) = [] ∨
        df_all_endpoints.filter (fun r => decide (r.patient_id = pid)) = []) →
      process_patient spr lookback map2 map4 df_static df_all_pats df_all_endpoints pid =
        .skipped) ∧
    (∀ (spr lookback : ℕ) (map2 map4 : ℚ → Option ℚ) (df_static : List StaticRow)
        (df_all_pats : List ImputedRow) (df_all_endpoints : List EndpointRow) (pid : Int),
      process_patient spr lookback map2 map4 df_static df_all_pats df_all_endpoints pid =
        .skipped →
      run_batch spr lookback map2 map4 df_static df_all_pats df_all_endpoints [pid] =
        .ok ([], 1)) := by
  refine ⟨?_, ?_, ?_, ?_⟩
  · intro spr lookback df_pat frame m ap he
    unfold gen_label gen_labelS
    dsimp only
    rw [if_pos]
    rcases he with he | he
    · exact Or.inl (by simp [he])
    · exact Or.inr (by simp [he])
  · intro L
    rfl
  · intro spr lookback map2 map4 df_static df_all_pats df_all_endpoints pid b g2 g4
      hm hii hiv hemp
    unfold process_patient
    dsimp only
    rw [hm, hii, hiv]
    dsimp only
    rw [if_pos]
    rcases hemp with he | he
    · exact Or.inl (by simp [he])
    · exact Or.inr (by simp [he])
  · intro spr lookback map2 map4 df_static df_all_pats df_all_endpoints pid h
    unfold run_batch
    simp [List.foldlM, h]

/-- Witness for C3 at concrete empty-slice patients. -/
theorem c3_empty_skip_witness :
    gen_label 12 1 [] ⟨false, exEndRows⟩ false none = .ok none ∧
    driver_handle_label none 5 = .skipped ∧
    process_patient 12 1 (fun _ => some 3) (fun _ => some 3) c2_static [] c2_ends 7 =
      .skipped ∧
    run_batch 12 1 (fun _ => some 3) (fun _ => some 3) c2_static [] c2_ends [7] =
      .ok ([], 1) := by
  refine ⟨c3_empty_skip.1 12 1 [] ⟨false, exEndRows⟩ false none (Or.inl rfl),
    c3_empty_skip.2.1 5, ?_, ?_⟩
  · exact c3_empty_skip.2.2.1 12 1 (fun _ => some 3) (fun _ => some 3) c2_static [] c2_ends 7
      false 1 1 (by decide) (by decide) (by decide) (Or.inl (by decide))
  · exact c3_empty_skip.2.2.2 12 1 (fun _ => some 3) (fun _ => some 3) c2_static [] c2_ends 7
      (c3_empty_skip.2.2.1 12 1 (fun _ => some 3) (fun _ => some 3) c2_static [] c2_ends 7
        false 1 1 (by decide) (by decide) (by decide) (Or.inl (by decide)))

/-- Length of the boolean-to-numeric label conversion. -/
lemma bool_to_label_length (l : List Bool) : (bool_to_label l).length = l.length := by
  simp [bool_to_label]

/-- Length of the transition-window channel. -/
lemma transition_length (spr l r : ℕ) (status : List ℚ) :
    (transition_to_failure spr l r status).length = status.length := by
  simp [transition_to_failure]

/-- Length of the binary respiratory annotation. -/
lemma get_any_resp_length (s : List ℚ) : (get_any_resp_label s).length = s.length := by
  simp [get_any_resp_label]

/-- Length of the validity mask. -/
lemma get_hr_status_length (lookback : ℕ) (c : List ℚ) :
    (get_hr_status lookback c).length = c.length := by
  simp [get_hr_status]

/-- C4: a successful gen_label call returns a table whose key columns
are the absolute timestamp, relative timestamp and patient-id columns
of the imputed slice and whose every column has exactly one row per row
of the input imputed series. -/
theorem c4_output_table (spr lookback : ℕ) (df_pat : List ImputedRow)
    (df_endpoint : EndpointFrame) (m : Bool) (ap : Option ℚ) (out : LabelTable)
    (h : gen_label spr lookback df_pat df_endpoint m ap = .ok (some out)) :
    out.abs_datetime = df_pat.map (·.datetime) ∧
    out.rel_datetime = df_pat.map (·.rel_datetime) ∧
    out.patient_id = df_pat.map (·.patient_id) ∧
    out.abs_datetime.length = df_pat.length ∧
    out.rel_datetime.length = df_pat.length ∧
    out.patient_id.length = df_pat.length ∧
    out.mortality.length = df_pat.length ∧
    out.circ_failure.length = df_pat.length ∧
    out.resp_failure.length = df_pat.length ∧
    out.urine_reg.length = df_pat.length ∧
    out.urine_binary.length = df_pat.length ∧
    out.phenotyping.length = df_pat.length ∧
    out.rem_los.length = df_pat.length := by
  obtain ⟨-, -, halign, habs, hrel, hpid, hmort, hcirc, hresp, hureg, hubin, hphen, hlos⟩ :=
    gen_label_ok_inv h
  have hrows : df_endpoint.rows.length = df_pat.length := by
    have := congrArg List.length halign
    simpa using this.symm
  refine ⟨habs, hrel, hpid, by simp [habs], by simp [hrel], by simp [hpid],
    ?_, ?_, ?_, ?_, ?_, ?_, ?_⟩
  · rw [convolve_hr_ok_length hmort, unique_label_length]
  · rw [convolve_hr_ok_length hcirc, bool_to_label_length, transition_length,
      List.length_map, hrows]
  · rw [convolve_hr_ok_length hresp, bool_to_label_length, transition_length,
      get_any_resp_length, List.length_map, hrows]
  · rw [convolve_hr_ok_length hureg,
      (future_urine_output_length spr 2 _ _ _).1]
    simp
  · rw [convolve_hr_ok_length hubin,
      (future_urine_output_length spr 2 _ _ _).2]
    simp
  · rw [convolve_hr_ok_length hphen, unique_label_length]
  · rw [convolve_hr_ok_length hlos, rem_los_channel_length]

/-- Witness for C4 at a concrete two-timestep patient. -/
theorem c4_output_table_witness :
    ∃ out, gen_label 12 1 exPat ⟨false, exEndRows⟩ false (some 3) = .ok (some out) ∧
      out.mortality.length = exPat.length :=
  ⟨_, rfl,
    (c4_output_table 12 1 exPat ⟨false, exEndRows⟩ false (some 3) _
        rfl).2.2.2.2.2.2.1⟩

/-- C5: a successful gen_label call builds its channels with the
default bounds: a 24-hour horizon for mortality and phenotyping, a
look-ahead window of 0 to 12 hours for the circulatory and respiratory
failure transitions, and a 2-hour look-ahead for the urine channels,
each masked with the heart-rate validity mask. -/
theorem c5_default_bounds (spr lookback : ℕ) (df_pat : List ImputedRow)
    (df_endpoint : EndpointFrame) (m : Bool) (ap : Option ℚ) (out : LabelTable)
    (h : gen_label spr lookback df_pat df_endpoint m ap = .ok (some out)) :
    convolve_hr (unique_label_at_hours spr df_pat.length (some (boolToQ m)) 24)
      (pat_mask lookback df_pat) = .ok out.mortality ∧
    convolve_hr (bool_to_label (transition_to_failure spr 0 12
        (df_endpoint.rows.map (·.circ_failure_status))))
      (pat_mask lookback df_pat) = .ok out.circ_failure ∧
    convolve_hr (bool_to_label (transition_to_failure spr 0 12
        (get_any_resp_label (df_endpoint.rows.map (·.resp_failure_status)))))
      (pat_mask lookback df_pat) = .ok out.resp_failure ∧
    convolve_hr (future_urine_output spr 2 (df_pat.map (·.vm24)) (df_pat.map (·.urine_cum))
        (df_pat.map (·.vm131))).1 (pat_mask lookback df_pat) = .ok out.urine_reg ∧
    convolve_hr (future_urine_output spr 2 (df_pat.map (·.vm24)) (df_pat.map (·.urine_cum))
        (df_pat.map (·.vm131))).2 (pat_mask lookback df_pat) = .ok out.urine_binary ∧
    convolve_hr (unique_label_at_hours spr df_pat.length ap 24)
      (pat_mask lookback df_pat) = .ok out.phenotyping ∧
    convolve_hr (rem_los_channel spr df_pat.length)
      (pat_mask lookback df_pat) = .ok out.rem_los := by
  obtain ⟨-, -, -, -, -, -, hmort, hcirc, hresp, hureg, hubin, hphen, hlos⟩ :=
    gen_label_ok_inv h
  exact ⟨hmort, hcirc, hresp, hureg, hubin, hphen, hlos⟩

/-- Witness for C5 at a concrete two-timestep patient. -/
theorem c5_default_bounds_witness :
    ∃ out, gen_label 12 1 exPat ⟨false, exEndRows⟩ false (some 3) = .ok (some out) ∧
      convolve_hr (unique_label_at_hours 12 exPat.length (some (boolToQ false)) 24)
        (pat_mask 1 exPat) = .ok out.mortality :=
  ⟨_, rfl, (c5_default_bounds 12 1 exPat ⟨false, exEndRows⟩ false (some 3) _ rfl).1⟩

/-- Length of the linspace embedding. -/
lemma linspaceQ_length (s e : ℚ) (n : ℕ) : (linspaceQ s e n).length = n := by
  unfold linspaceQ
  by_cases h0 : n = 0
  · simp [h0]
  · by_cases h1 : n = 1
    · simp [h0, h1]
    · rw [if_neg h0, if_neg h1, List.length_map, List.length_range]

/-- Closed form of the linspace entries for at least two points. -/
lemma linspaceQ_getD (s : ℚ) (L i : ℕ) (h0 : L ≠ 0) (h1 : L ≠ 1) (hi : i < L) :
    (linspaceQ s 0 L).getD i 0 = s + (i : ℚ) * ((0 - s) / ((L : ℚ) - 1)) := by
  unfold linspaceQ
  rw [if_neg h0, if_neg h1]
  exact getD_range_map _ L i 0 hi

/-- C6: at stay length one the remaining-length-of-stay channel is the
single value stay length over steps-per-hour, which is not zero, so the
channel does not end at zero at the last timestep. -/
theorem c6_counterexample :
    rem_los_channel 12 1 = [some ((1 : ℚ) / 12)] ∧
    (rem_los_channel 12 1).getLast? ≠ some (some 0) := by
  have h : rem_los_channel 12 1 = [some ((1 : ℚ) / 12)] := by
    simp [rem_los_channel, linspaceQ]
  refine ⟨h, ?_⟩
  rw [h]
  simp

/-- C6 (amended): for stay length at least two the channel is the
linspace from stay length over steps-per-hour down to zero: length
equals the stay length, the first entry is stay length over
steps-per-hour, the last entry is zero, consecutive entries decrease
strictly by the constant step, and at stay length one the single entry
is one over steps-per-hour instead of zero. -/
theorem c6_amended (spr L : ℕ) (hspr : 1 ≤ spr) (hL : 2 ≤ L) :
    rem_los_channel spr L = (linspaceQ ((L : ℚ) / (spr : ℚ)) 0 L).map some ∧
    (linspaceQ ((L : ℚ) / (spr : ℚ)) 0 L).length = L ∧
    (linspaceQ ((L : ℚ) / (spr : ℚ)) 0 L).head? = some ((L : ℚ) / (spr : ℚ)) ∧
    (linspaceQ ((L : ℚ) / (spr : ℚ)) 0 L).getLast? = some 0 ∧
    (∀ i, i + 1 < L →
      (linspaceQ ((L : ℚ) / (spr : ℚ)) 0 L).getD (i + 1) 0 <
        (linspaceQ ((L : ℚ) / (spr : ℚ)) 0 L).getD i 0) ∧
    (∀ i, i + 1 < L →
      (linspaceQ ((L : ℚ) / (spr : ℚ)) 0 L).getD i 0 -
          (linspaceQ ((L : ℚ) / (spr : ℚ)) 0 L).getD (i + 1) 0 =
        ((L : ℚ) / (spr : ℚ)) / ((L : ℚ) - 1)) ∧
    rem_los_channel spr 1 = [some ((1 : ℚ) / (spr : ℚ))] := by
  have h0 : L ≠ 0 := by omega
  have h1 : L ≠ 1 := by omega
  have hLQ : (2 : ℚ) ≤ (L : ℚ) := by exact_mod_cast hL
  have hsprQ : (1 : ℚ) ≤ (spr : ℚ) := by exact_mod_cast hspr
  have hs : 0 < (L : ℚ) / (spr : ℚ) := div_pos (by linarith) (by linarith)
  have hden : (0 : ℚ) < (L : ℚ) - 1 := by linarith
  have hne : ((L : ℚ) - 1) ≠ 0 := ne_of_gt hden
  have hc : (0 - (L : ℚ) / (spr : ℚ)) / ((L : ℚ) - 1) < 0 :=
    div_neg_of_neg_of_pos (by linarith) hden
  refine ⟨rfl, linspaceQ_length _ _ _, ?_, ?_, ?_, ?_, ?_⟩
  · rw [List.head?_eq_getElem?]
    unfold linspaceQ
    rw [if_neg h0, if_neg h1]
    simp [List.getElem?_map, List.getElem?_range, show 0 < L by omega]
  · rw [List.getLast?_eq_getElem?, linspaceQ_length]
    unfold linspaceQ
    rw [if_neg h0, if_neg h1]
    simp only [List.getElem?_map, List.getElem?_range, show L - 1 < L by omega,
      if_pos, Option.map_some', Option.some.injEq]
    rw [Nat.cast_sub (show 1 ≤ L by omega), Nat.cast_one]
    rw [mul_comm, div_mul_cancel₀ _ hne]
    ring
  · intro i hi
    rw [linspaceQ_getD _ _ _ h0 h1 (by omega), linspaceQ_getD _ _ _ h0 h1 (by omega)]
    push_cast
    have expand : ((i : ℚ) + 1) * ((0 - (L : ℚ) / (spr : ℚ)) / ((L : ℚ) - 1)) =
        (i : ℚ) * ((0 - (L : ℚ) / (spr : ℚ)) / ((L : ℚ) - 1)) +
          (0 - (L : ℚ) / (spr : ℚ)) / ((L : ℚ) - 1) := by ring
    rw [expand]
    linarith [hc]
  · intro i hi
    rw [linspaceQ_getD _ _ _ h0 h1 (by omega), linspaceQ_getD _ _ _ h0 h1 (by omega)]
    push_cast
    field_simp
    ring
  · simp [rem_los_channel, linspaceQ]

/-- Witness for C6 (amended) at the 48-timestep grid of the spec's
end-to-end scenario. -/
theorem c6_amended_witness :
    (linspaceQ (((48 : ℕ) : ℚ) / ((12 : ℕ) : ℚ)) 0 48).getLast? = some 0 :=
  (c6_amended 12 48 (by decide) (by decide)).2.2.2.1




/-- C7: a patient whose APACHE II severity score cannot be coerced to
float is not continued with a default; the uncaught coercion error
makes the per-patient step fatal. -/
theorem c7_counterexample :
    process_patient 12 1 (fun _ => some 3) (fun _ => some 3) c7_static exPat exEndRows 7 =
      .fatal .valueError ∧
    StepResult.fatal PyError.valueError ≠ StepResult.skipped := by
  exact ⟨by decide, by decide⟩

/-- C7 (amended): a ValueError or TypeError while coercing the
discharge status is caught and replaced by the false default so the
patient continues, but a coercion error on a severity score is not
caught: it escapes the per-patient step and aborts the batch. -/
theorem c7_amended :
    (∀ (rows : List StaticRow) (r : StaticRow) (rest : List StaticRow),
      rows = r :: rest →
      (r.discharge_status = .error .valueError ∨ r.discharge_status = .error .typeError) →
      try_coerce (mort_lookup rows) = .ok false) ∧
    (∀ (spr lookback : ℕ) (map2 map4 : ℚ → Option ℚ) (df_static : List StaticRow)
        (df_all_pats : List ImputedRow) (df_all_endpoints : List EndpointRow) (pid : Int)
        (r : StaticRow) (e : PyError),
      df_static.filter (fun x => decide (x.patient_id = pid)) = [r] →
      (∃ b, try_coerce (mort_lookup [r]) = .ok b) →
      r.apache_ii = .error e →
      process_patient spr lookback map2 map4 df_static df_all_pats df_all_endpoints pid =
        .fatal e) := by
  constructor
  · intro rows r rest hrows hdis
    subst hrows
    rcases hdis with hd | hd <;> simp [mort_lookup, try_coerce, hd]
  · intro spr lookback map2 map4 df_static df_all_pats df_all_endpoints pid r e
      hfilter hmort happ
    obtain ⟨b, hb⟩ := hmort
    unfold process_patient
    dsimp only
    rw [hfilter, hb]
    dsimp only
    simp [apache_ii_lookup, happ]

/-- Witness for C7 (amended) at concrete static rows. -/
theorem c7_amended_witness :
    try_coerce (mort_lookup [c7_row]) = .ok false ∧
    process_patient 12 1 (fun _ => some 3) (fun _ => some 3) c7_static exPat exEndRows 7 =
      .fatal .valueError := by
  refine ⟨c7_amended.1 [c7_row] c7_row [] rfl (Or.inl rfl), ?_⟩
  exact c7_amended.2 12 1 (fun _ => some 3) (fun _ => some 3) c7_static exPat exEndRows 7
    c7_row2 .valueError (by decide) ⟨false, by decide⟩ rfl

/-- C8: the endpoint preparation step accepts exactly the slices whose
timestamp column is nondecreasing, returns an already sorted slice
unchanged, always returns a slice sorted by timestamp, returns a
permutation of the input rows, and is stable: rows of equal timestamp
keep their original relative order. -/
theorem c8_endpoint_sorting (rows : List EndpointRow) :
    (is_df_sorted (rows.map (·.datetime)) = true ↔
      (rows.map (·.datetime)).Chain' (· ≤ ·)) ∧
    (is_df_sorted (rows.map (·.datetime)) = true → prepare_endpoint rows = rows) ∧
    ((prepare_endpoint rows).map (·.datetime)).Pairwise (· ≤ ·) ∧
    (prepare_endpoint rows).Perm rows ∧
    (∀ k : Int, (prepare_endpoint rows).filter (fun r => decide (r.datetime = k)) =
      rows.filter (fun r => decide (r.datetime = k))) := by
  refine ⟨is_df_sorted_iff _, ?_, ?_, ?_, ?_⟩
  · intro hs
    unfold prepare_endpoint
    rw [if_pos hs]
  · unfold prepare_endpoint
    split
    · rw [List.pairwise_map]
      have hc := (is_df_sorted_iff (rows.map (·.datetime))).mp (by assumption)
      rw [List.chain'_iff_pairwise, List.pairwise_map] at hc
      exact hc
    · rw [List.pairwise_map]
      exact List.sorted_insertionSort endpoint_le rows
  · unfold prepare_endpoint
    split
    · exact List.Perm.refl rows
    · exact List.perm_insertionSort endpoint_le rows
  · intro k
    unfold prepare_endpoint
    split
    · rfl
    · exact filter_insertionSort k rows

/-- Witness for C8 at concrete sorted and unsorted endpoint slices. -/
theorem c8_endpoint_sorting_witness :
    (is_df_sorted (exEndRows.map (·.datetime)) = true ∧
      prepare_endpoint exEndRows = exEndRows) ∧
    ((prepare_endpoint c2_ends).map (·.datetime)).Pairwise (· ≤ ·) :=
  ⟨⟨by decide, (c8_endpoint_sorting exEndRows).2.1 (by decide)⟩,
    (c8_endpoint_sorting c2_ends).2.2.1⟩

/-- C9: gen_label does not leave its endpoint input unchanged: at a
concrete nonempty aligned patient the in-place set_index moves the
datetime column into the frame's index. -/
theorem c9_counterexample :
    (gen_labelS 12 1 exPat ⟨false, exEndRows⟩ false (some 3)).2 ≠
      (⟨false, exEndRows⟩ : EndpointFrame) ∧
    (gen_labelS 12 1 exPat ⟨false, exEndRows⟩ false (some 3)).2.index_is_datetime = true := by
  exact ⟨by decide, by decide⟩

/-- C9 (amended): the imputed series is only read, and the endpoint
frame is returned unchanged when an input series is empty or its
datetime column has duplicates, but for every patient that passes those
checks gen_label mutates the endpoint frame in place: set_index marks
the datetime column as the frame's index, leaving the rows intact. -/
theorem c9_amended (spr lookback : ℕ) (df_pat : List ImputedRow)
    (frame : EndpointFrame) (m : Bool) (ap : Option ℚ) :
    (df_pat = [] ∨ frame.rows = [] →
      (gen_labelS spr lookback df_pat frame m ap).2 = frame) ∧
    (¬ (frame.rows.map (·.datetime)).Nodup →
      (gen_labelS spr lookback df_pat frame m ap).2 = frame) ∧
    (df_pat ≠ [] → frame.rows ≠ [] → (frame.rows.map (·.datetime)).Nodup →
      (gen_labelS spr lookback df_pat frame m ap).2 = ⟨true, frame.rows⟩) := by
  refine ⟨?_, ?_, ?_⟩
  · intro he
    unfold gen_labelS
    dsimp only
    rw [if_pos]
    rcases he with he | he
    · exact Or.inl (by simp [he])
    · exact Or.inr (by simp [he])
  · intro hnd
    unfold gen_labelS
    dsimp only
    by_cases h1 : df_pat.length = 0 ∨ frame.rows.length = 0
    · rw [if_pos h1]
    · rw [if_neg h1, if_pos hnd]
  · intro hp hr hnd
    unfold gen_labelS
    dsimp only
    have h1 : ¬ (df_pat.length = 0 ∨ frame.rows.length = 0) := by
      intro hc
      rcases hc with hc | hc
      · exact hp (List.length_eq_zero.mp hc)
      · exact hr (List.length_eq_zero.mp hc)
    rw [if_neg h1, if_neg (not_not_intro hnd)]
    by_cases h3 : (List.map (fun x => x.datetime) df_pat).length = frame.rows.length
    · rw [if_neg (not_not_intro h3)]
      by_cases h4 : List.map (fun x => x.datetime) df_pat =
          List.map (fun x => x.datetime) frame.rows
      · rw [if_neg (not_not_intro h4)]
      · rw [if_pos h4]
    · rw [if_pos h3]

/-- Witness for C9 (amended) at a concrete nonempty aligned patient. -/
theorem c9_amended_witness :
    (gen_labelS 12 1 exPat ⟨false, exEndRows⟩ false (some 3)).2 =
      (⟨true, exEndRows⟩ : EndpointFrame) :=
  (c9_amended 12 1 exPat ⟨false, exEndRows⟩ false (some 3)).2.2
    (by decide) (by decide) (by decide)


/-- C10: with a readable discharge status the mortality flag is the
string comparison of the value against exactly the string dead — true
precisely for the string value dead, so every other value yields false
— and a ValueError or TypeError from the lookup yields false. -/
theorem c10_mortality_string :
    (∀ (rows : List StaticRow) (r : StaticRow) (rest : List StaticRow) (v : PyVal),
      rows = r :: rest → r.discharge_status = .ok v →
      try_coerce (mort_lookup rows) = .ok (decide (pyStr v = "dead")) ∧
        (decide (pyStr v = "dead") = true ↔ v = PyVal.vstr ("dead"))) ∧
    (∀ (rows : List StaticRow) (r : StaticRow) (rest : List StaticRow),
      rows = r :: rest → r.discharge_status = .error .valueError →
      try_coerce (mort_lookup rows) = .ok false) ∧
    (∀ (rows : List StaticRow) (r : StaticRow) (rest : List StaticRow),
      rows = r :: rest → r.discharge_status = .error .typeError →
      try_coerce (mort_lookup rows) = .ok false) := by
  refine ⟨?_, ?_, ?_⟩
  · intro rows r rest v hrows hd
    subst hrows
    constructor
    · simp [mort_lookup, try_coerce, hd]
    · cases v with
      | vstr s => simp [pyStr]
      | vnan => simp [pyStr]
      | vnone => simp [pyStr]
  · intro rows r rest hrows hd
    subst hrows
    simp [mort_lookup, try_coerce, hd]
  · intro rows r rest hrows hd
    subst hrows
    simp [mort_lookup, try_coerce, hd]

/-- Witness for C10 at concrete static rows. -/
theorem c10_mortality_string_witness :
    (try_coerce (mort_lookup [c10_row]) = .ok (decide (pyStr (PyVal.vstr ("dead")) = "dead")) ∧
      (decide (pyStr (PyVal.vstr ("dead")) = "dead") = true ↔
        PyVal.vstr ("dead") = PyVal.vstr ("dead"))) ∧
    try_coerce (mort_lookup [c7_row]) = .ok false :=
  ⟨c10_mortality_string.1 [c10_row] c10_row [] (PyVal.vstr ("dead")) rfl rfl,
    c10_mortality_string.2.1 [c7_row] c7_row [] rfl rfl⟩
